import Mathlib

/-!
Verification of the task-scheduling and generation-dispatch core of the
`astrbot_plugin_image_generation` repository, against a shallow embedding
of its Python sources.

Embedded components:
* `src/adapter/jimeng2api_adapter.py` — `Jimeng2APIAdapter.generate` (bounded
  retry, key rotation, exponential backoff) and `_extract_images`;
* `src/core/base_adapter.py` — key bookkeeping (`_get_current_api_key`,
  `_rotate_api_key`) and the attempt-budget clamp of `__init__`;
* `src/core/generator.py` — `ImageGenerator.generate`'s fault barrier;
* `src/core/task_manager.py` — the daily-task date check of `_daily_loop`
  and the loop-task registration/cancellation bookkeeping;
* `src/core/image_processor.py` — `cleanup_cache`;
* `src/main.py` — the capability sanitization of
  `_generate_and_send_image_async`.

Byte strings are modelled as `List Nat`, Python's cooperative scheduling as
explicit step functions over explicit state, and the network as an oracle
giving the outcome of each attempt.
-/

/-- Image payload bytes (Python `bytes`). -/
abbrev Blob := List Nat

/-- Mirror of the dataclass `GenerationResult` in `src/core/types.py`:
an optional list of image blobs plus an optional error string. -/
structure GenerationResult where
  images : Option (List Blob)
  error : Option String
deriving DecidableEq, Repr

/-- Observable events of one `Jimeng2APIAdapter.generate` call: a backend
invocation attempt (recording the credential index actually used for it) or
a backoff sleep (recording its duration in seconds). -/
inductive RetryEvent where
  | attempt (keyIdx : Nat)
  | sleep (duration : Nat)
deriving DecidableEq, Repr

/-- Python's `x or d` for an optional string `x` (`None` and `""` are falsy),
as used in `last_error = err or "生成失败"`. -/
def pyOr (x : Option String) (d : String) : String :=
  match x with
  | some s => if s = "" then d else s
  | none => d

/-- One `_generate_once` outcome: the pair `(images, err)` it returns. -/
abbrev AttemptOutcome := Option (List Blob) × Option String

/-- The `for attempt in range(self.max_retry_attempts)` loop of
`Jimeng2APIAdapter.generate` (src/adapter/jimeng2api_adapter.py lines 31-50).
`outcome i` is what `_generate_once` returns on attempt `i`; `K` is
`len(self.api_keys)`; `remaining` counts the loop iterations still to run,
`a` is the current value of `attempt`, `c` of `self.current_key_index`, and
`lastError` of `last_error`.  Besides the `GenerationResult` the function
returns the list of emitted events and the list of divisors of every `%`
and `//` the loop evaluates (the key lookup
`self.api_keys[self.current_key_index % len(self.api_keys)]`, the rotation
`(self.current_key_index + 1) % len(self.api_keys)` guarded by
`len(self.api_keys) > 1`, the backoff test
`(attempt + 1) % max(1, len(self.api_keys))`, and the backoff exponent
`(attempt + 1) // len(self.api_keys)`). -/
def generateLoop (outcome : Nat → AttemptOutcome) (K : Nat) :
    Nat → Nat → Nat → String → GenerationResult × List RetryEvent × List Nat
  | 0, _, _, le0 =>
      (⟨none, some ("重试失败: " ++ le0)⟩, [], [])
  | remaining + 1, a, c, _lastError =>
      match outcome a with
      | (some imgs, _) => (⟨some imgs, none⟩, [.attempt (c % K)], [K])
      | (none, err) =>
          let lastError := pyOr err "生成失败"
          if remaining = 0 then
            (⟨none, some ("重试失败: " ++ lastError)⟩, [.attempt (c % K)], [K])
          else
            let c' := if 1 < K then (c + 1) % K else c
            let rotDivs := if 1 < K then [K] else []
            let doSleep := (a + 1) % max 1 K = 0
            let sleepEvs :=
              if doSleep then [RetryEvent.sleep (min (2 ^ ((a + 1) / K)) 10)] else []
            let sleepDivs := if doSleep then [max 1 K, K] else [max 1 K]
            let r := generateLoop outcome K remaining (a + 1) c' lastError
            (r.1, .attempt (c % K) :: sleepEvs ++ r.2.1, [K] ++ rotDivs ++ sleepDivs ++ r.2.2)

/-- `Jimeng2APIAdapter.generate` (src/adapter/jimeng2api_adapter.py lines
26-50): the empty-pool guard, then `generateLoop` starting from attempt 0,
key index 0 (a fresh adapter), and `last_error = "未配置 API Key"`. -/
def generate (apiKeys : List String) (maxRetryAttempts : Nat)
    (outcome : Nat → AttemptOutcome) : GenerationResult × List RetryEvent × List Nat :=
  if apiKeys = [] then (⟨none, some "未配置 API Key"⟩, [], [])
  else generateLoop outcome apiKeys.length maxRetryAttempts 0 0 "未配置 API Key"

/-- The attempt-budget clamp of `BaseImageAdapter.__init__`
(src/core/base_adapter.py line 23): `max(1, config.max_retry_attempts)`,
where the configured value is an arbitrary integer. -/
def clampRetryAttempts (configured : Int) : Nat := (max 1 configured).toNat

/-- Number of `attempt` events in a trace. -/
def countAttempts (evs : List RetryEvent) : Nat :=
  (evs.filter fun e => match e with | .attempt _ => true | .sleep _ => false).length

/-- Trace of one full run of all-failing attempts as the spec describes it:
attempt `i` uses credential index `i % K`, and immediately before attempt
`i` there is a backoff sleep of `min(2 ^ (i / K), 10)` seconds exactly when
`i` is a positive multiple of `K`.  Stated from the spec, to be compared
with the trace the source produces. -/
def claimedRetryTrace (K M : Nat) : List RetryEvent :=
  (List.range M).flatMap fun i =>
    (if 0 < i ∧ i % K = 0 then [RetryEvent.sleep (min (2 ^ (i / K)) 10)] else []) ++
      [RetryEvent.attempt (i % K)]

/-- One item of the response's `data` array as `_extract_images`
(src/adapter/jimeng2api_adapter.py lines 143-164) consumes it: a
`b64_json` field carrying (decoded) bytes, a `url` field whose download
yielded the given bytes on HTTP 200 and nothing otherwise, or an item with
neither field. -/
inductive RespItem where
  | b64 (data : Blob)
  | url (fetched : Option Blob)
  | other
deriving DecidableEq, Repr

/-- `Jimeng2APIAdapter._extract_images`: `none` models a response without a
`data` field; otherwise the items are scanned in order, collecting decoded
`b64_json` bytes and successfully downloaded `url` bytes, and an empty
collection is an error. -/
def extractImages (response : Option (List RespItem)) : AttemptOutcome :=
  match response with
  | none => (none, some "响应中未找到 data 字段")
  | some data =>
      let images := data.foldl
        (fun acc item =>
          match item with
          | .b64 d => acc ++ [d]
          | .url (some bytes) => acc ++ [bytes]
          | .url none => acc
          | .other => acc) []
      if images = [] then (none, some "未找到有效的图片数据") else (some images, none)

/-- Exclusivity predicate of the spec on `GenerationResult`: either a
non-empty image list and no error, or no images and a non-empty error
description — never both populated, never both empty. -/
def resultExclusive (r : GenerationResult) : Prop :=
  (∃ imgs, r.images = some imgs ∧ imgs ≠ [] ∧ r.error = none) ∨
    (r.images = none ∧ ∃ e, r.error = some e ∧ e ≠ "")

/-- The fault barrier of `ImageGenerator.generate` (src/core/generator.py
lines 52-56): an adapter outcome that is a value is returned as-is, a raised
exception is converted into an error result. -/
def dispatcherHandle (outcome : Except String GenerationResult) : GenerationResult :=
  match outcome with
  | .ok res => res
  | .error exc => ⟨none, some exc⟩

/-- The date-change check that `_daily_loop` (src/core/task_manager.py lines
176-194) performs once per wake-up: given the stored last-run date, the
current date and whether the factory invocation succeeds, it returns the new
stored last-run date and whether the factory was invoked.  The date is
stored back only after `await coro_func()` returns normally; an exception
skips the update. -/
def dailyLoopStep (lastRunDate : Option String) (currentDate : String)
    (succeeds : Bool) : Option String × Bool :=
  if some currentDate ≠ lastRunDate then
    if succeeds then (some currentDate, true) else (lastRunDate, true)
  else (lastRunDate, false)

/-- Modelled from the spec: the flag class `ImageCapability` is imported
from `src/core/types.py` but absent from the provided sources; per the
spec's CapabilityFlags it is "a set of independent boolean features a
backend advertises (image-to-image, aspect-ratio control, resolution
control)" plus the text-to-image flag the adapters name.  A membership test
`capabilities & ImageCapability.X` becomes reading the corresponding
boolean field. -/
structure ImageCapability where
  textToImage : Bool
  imageToImage : Bool
  aspectRatio : Bool
  resolution : Bool
deriving DecidableEq, Repr

/-- Python truthiness of an `Optional[list]`: `None` and `[]` are falsy. -/
def optionListTruthy : Option (List α) → Bool
  | none => false
  | some l => !l.isEmpty

/-- A reference image as `_generate_and_send_image_async` receives it:
bytes plus a MIME type string. -/
abbrev RefImage := Blob × String

/-- The capability sanitization of `_generate_and_send_image_async`
(src/main.py lines 182-201): reference images are dropped when the adapter
lacks image-to-image support, a non-"自动" aspect ratio is reset to "自动"
when it lacks aspect-ratio control, and a non-"1K" resolution is reset to
"1K" when it lacks resolution control. -/
def sanitizeGenerationParams (capabilities : ImageCapability)
    (imagesData : Option (List RefImage)) (aspect resolution : String) :
    Option (List RefImage) × String × String :=
  let imagesData :=
    if !capabilities.imageToImage && optionListTruthy imagesData then none else imagesData
  let aspect :=
    if !capabilities.aspectRatio && aspect != "自动" then "自动" else aspect
  let resolution :=
    if !capabilities.resolution && resolution != "1K" then "1K" else resolution
  (imagesData, aspect, resolution)

/-- The reference-image list actually passed on to the request
(src/main.py lines 213-216): `images = []` followed by appending every
entry of `images_data` when it is truthy. -/
def refImagesList : Option (List RefImage) → List RefImage
  | none => []
  | some l => l

/-- The comparison key of `files.sort(key=lambda x: x[1])` in
`cleanup_cache`: ascending last-modified time. -/
def cacheLe (x y : String × Int) : Bool := decide (x.2 ≤ y.2)

/-- The sorted file list of `cleanup_cache` (src/core/image_processor.py
line 169): the `(path, mtime)` snapshot sorted stably by mtime, oldest
first. -/
def sortedCacheFiles (files : List (String × Int)) : List (String × Int) :=
  files.mergeSort cacheLe

/-- The `to_delete` slice of `cleanup_cache` (src/core/image_processor.py
lines 172-173): the first `len(files) - max` entries of the sorted list
when the count exceeds the maximum, and nothing otherwise. -/
def cleanupSelect (files : List (String × Int)) (maxCacheCount : Nat) :
    List (String × Int) :=
  let sorted := sortedCacheFiles files
  if maxCacheCount < sorted.length then sorted.take (sorted.length - maxCacheCount)
  else []

/-- The files `cleanup_cache` never attempts to delete: the suffix of the
sorted list past the `to_delete` slice. -/
def cleanupKept (files : List (String × Int)) (maxCacheCount : Nat) :
    List (String × Int) :=
  let sorted := sortedCacheFiles files
  if maxCacheCount < sorted.length then sorted.drop (sorted.length - maxCacheCount)
  else sorted

/-- The paths `cleanup_cache` actually removes (src/core/image_processor.py
lines 174-180): each selected path is attempted with `os.remove`; `removeOk`
says whether that call succeeds, and an `OSError` on one file is logged and
does not stop the remaining deletions. -/
def cleanupDeleted (files : List (String × Int)) (maxCacheCount : Nat)
    (removeOk : String → Bool) : List String :=
  (cleanupSelect files maxCacheCount).filterMap fun pm =>
    if removeOk pm.1 then some pm.1 else none

/-- An asyncio task created by `TaskManager.start_loop_task`: its id and the
name its done-callback was bound to via `functools.partial`. -/
structure SchedTask where
  id : Nat
  name : String
deriving DecidableEq, Repr

/-- The `TaskManager` bookkeeping relevant to loop-task dedup
(src/core/task_manager.py): the fresh-task counter, the `_loop_tasks`
dict as an association list, every task ever created, and which task ids
have been cancelled resp. have finished (reached `task.done()`). -/
structure SchedState where
  nextId : Nat
  loopTasks : List (String × Nat)
  created : List SchedTask
  cancelled : List Nat
  finished : List Nat
deriving DecidableEq, Repr

/-- Dict lookup `self._loop_tasks.get(name)`. -/
def lookupName (m : List (String × Nat)) (n : String) : Option Nat :=
  (m.find? fun p => p.1 == n).map Prod.snd

/-- Dict removal `self._loop_tasks.pop(name, None)`'s effect on the map. -/
def eraseName (m : List (String × Nat)) (n : String) : List (String × Nat) :=
  m.filter fun p => p.1 != n

/-- `TaskManager.stop_loop_task` (src/core/task_manager.py lines 82-87):
pop the name from `_loop_tasks` and cancel the popped task if it is not
done. -/
def stopLoopTask (s : SchedState) (n : String) : SchedState :=
  match lookupName s.loopTasks n with
  | some t =>
      { s with
        loopTasks := eraseName s.loopTasks n
        cancelled :=
          if t ∈ s.finished ∨ t ∈ s.cancelled then s.cancelled else t :: s.cancelled }
  | none => s

/-- `TaskManager.start_loop_task` (src/core/task_manager.py lines 34-80):
if the name is already registered, first `stop_loop_task` it; then create a
fresh task, store it under the name and attach the done-callback. -/
def startLoopTask (s : SchedState) (n : String) : SchedState :=
  let s := if (lookupName s.loopTasks n).isSome then stopLoopTask s n else s
  let t := s.nextId
  { s with
    nextId := t + 1
    loopTasks := (n, t) :: eraseName s.loopTasks n
    created := ⟨t, n⟩ :: s.created }

/-- `TaskManager._on_loop_task_done` (src/core/task_manager.py lines
89-92): the done-callback pops the bound name from `_loop_tasks`
unconditionally, whether or not the dict currently maps that name to the
finished task. -/
def onLoopTaskDone (s : SchedState) (n : String) : SchedState :=
  { s with loopTasks := eraseName s.loopTasks n }

/-- Scheduler operations: the two `TaskManager` entry points, plus the
event-loop step in which a previously cancelled task `t` terminates and its
done-callback runs (the `while True` body of `_loop` catches every
exception except `asyncio.CancelledError`, so a loop task only ever
finishes after being cancelled). -/
inductive SchedOp where
  | start (n : String)
  | stop (n : String)
  | finish (t : Nat)
deriving DecidableEq, Repr

/-- The name a task's done-callback was bound to. -/
def taskNameOf (s : SchedState) (t : Nat) : Option String :=
  (s.created.find? fun c => c.id == t).map SchedTask.name

/-- One scheduler step. -/
def schedStep (s : SchedState) (op : SchedOp) : SchedState :=
  match op with
  | .start n => startLoopTask s n
  | .stop n => stopLoopTask s n
  | .finish t =>
      if t ∈ s.cancelled ∧ t ∉ s.finished then
        match taskNameOf s t with
        | some n => onLoopTaskDone { s with finished := t :: s.finished } n
        | none => s
      else s

/-- Run a sequence of scheduler operations from the freshly constructed
`TaskManager`. -/
def schedRun (ops : List SchedOp) : SchedState :=
  ops.foldl schedStep ⟨0, [], [], [], []⟩

/-- The tasks registered under name `n` that are still active: created,
not cancelled, not finished — their `while True` bodies are still being
rescheduled. -/
def activeNamed (s : SchedState) (n : String) : List Nat :=
  (s.created.filter fun c =>
    c.name == n && !(s.cancelled.contains c.id) && !(s.finished.contains c.id)).map
    SchedTask.id

/-! ### Theorems -/

/-- C8: If the credential pool is empty at the time of a generation call,
`Jimeng2APIAdapter.generate` returns the failure result `未配置 API Key`
immediately: no backend invocation attempt, no backoff sleep, and no retry
arithmetic is performed at all. -/
theorem generate_empty_pool_fails_fast (M : Nat) (outcome : Nat → AttemptOutcome) :
    generate [] M outcome = (⟨none, some "未配置 API Key"⟩, [], []) := rfl

/-- C1 counterexample: on the observed date change 2024-01-01 → 2024-01-02
with a failing factory, `_daily_loop` does invoke the factory but does NOT
update the stored last-run date to the new current date, and on the very
next wake-up of the same date it invokes the factory again — refuting both
halves of the claim. -/
theorem dailyLoopStep_failed_run_cex :
    (dailyLoopStep (some "2024-01-01") "2024-01-02" false).2 = true ∧
    (dailyLoopStep (some "2024-01-01") "2024-01-02" false).1 ≠ some "2024-01-02" ∧
    (dailyLoopStep (dailyLoopStep (some "2024-01-01") "2024-01-02" false).1
        "2024-01-02" false).2 = true := by
  decide

/-- C1 amended: once a date change is detected, `_daily_loop` executes the
factory, but updates the stored last-run date to the new current date only
when the factory returns normally; when it raises, the stored date is left
unchanged, so the failed daily run executes again at the very next check of
the same date, while a successful run does not. -/
theorem dailyLoopStep_updates_only_on_success (last : Option String) (cur : String)
    (h : some cur ≠ last) :
    dailyLoopStep last cur true = (some cur, true) ∧
    dailyLoopStep last cur false = (last, true) ∧
    (dailyLoopStep (dailyLoopStep last cur false).1 cur false).2 = true ∧
    (dailyLoopStep (dailyLoopStep last cur true).1 cur false).2 = false := by
  simp [dailyLoopStep, h]

/-- Witness for the amended C1 theorem at the dates of the counterexample. -/
theorem dailyLoopStep_updates_only_on_success_witness :
    dailyLoopStep (some "2024-01-01") "2024-01-02" true = (some "2024-01-02", true) ∧
    dailyLoopStep (some "2024-01-01") "2024-01-02" false = (some "2024-01-01", true) ∧
    (dailyLoopStep (dailyLoopStep (some "2024-01-01") "2024-01-02" false).1
        "2024-01-02" false).2 = true ∧
    (dailyLoopStep (dailyLoopStep (some "2024-01-01") "2024-01-02" true).1
        "2024-01-02" false).2 = false :=
  dailyLoopStep_updates_only_on_success (some "2024-01-01") "2024-01-02" (by decide)

/-- C3: `start_loop_task`'s dedup does not survive the completion
bookkeeping of a cancelled task.  After `start "A"`, `start "A"` (which
cancels task 0), the cancelled task 0 finishing (its done-callback pops the
name "A", discarding task 1's registration), and a third `start "A"`, both
task 1 and task 2 are active under the name "A": two tasks registered under
one name run concurrently, violating the at-most-one invariant the claim
states. -/
theorem startLoopTask_dedup_violation :
    activeNamed (schedRun [.start "A", .start "A", .finish 0, .start "A"]) "A" = [2, 1] ∧
    (activeNamed (schedRun [.start "A", .start "A", .finish 0, .start "A"]) "A").length = 2 ∧
    lookupName (schedRun [.start "A", .start "A", .finish 0, .start "A"]).loopTasks "A" =
      some 2 := by
  decide

/-- C7: the capability sanitization of `_generate_and_send_image_async` is
a total function of the request that, for a backend lacking image-to-image
support, leaves no reference image in the dispatched request; for one
lacking aspect-ratio control, always dispatches the automatic sentinel
"自动"; for one lacking resolution control, always dispatches the baseline
"1K"; and passes every parameter the backend supports through unchanged. -/
theorem sanitize_respects_capabilities (caps : ImageCapability)
    (imgs : Option (List RefImage)) (ar res : String) :
    (caps.imageToImage = false →
      refImagesList (sanitizeGenerationParams caps imgs ar res).1 = []) ∧
    (caps.imageToImage = true → (sanitizeGenerationParams caps imgs ar res).1 = imgs) ∧
    (caps.aspectRatio = false → (sanitizeGenerationParams caps imgs ar res).2.1 = "自动") ∧
    (caps.aspectRatio = true → (sanitizeGenerationParams caps imgs ar res).2.1 = ar) ∧
    (caps.resolution = false → (sanitizeGenerationParams caps imgs ar res).2.2 = "1K") ∧
    (caps.resolution = true → (sanitizeGenerationParams caps imgs ar res).2.2 = res) := by
  obtain ⟨t2i, i2i, arc, resc⟩ := caps
  refine ⟨?_, ?_, ?_, ?_, ?_, ?_⟩ <;> intro hcap <;> simp only at hcap <;> subst hcap
  · cases imgs with
    | none => simp [sanitizeGenerationParams, optionListTruthy, refImagesList]
    | some l =>
      cases l with
      | nil => simp [sanitizeGenerationParams, optionListTruthy, refImagesList]
      | cons x xs => simp [sanitizeGenerationParams, optionListTruthy, refImagesList]
  · simp [sanitizeGenerationParams]
  · by_cases h : ar = "自动" <;> simp [sanitizeGenerationParams, h]
  · simp [sanitizeGenerationParams]
  · by_cases h : res = "1K" <;> simp [sanitizeGenerationParams, h]
  · simp [sanitizeGenerationParams]

/-- Witness for C7 at a backend that supports none of the three optional
features, a supplied reference image, ratio "1:1" and resolution "2K". -/
theorem sanitize_respects_capabilities_witness :
    refImagesList (sanitizeGenerationParams ⟨true, false, false, false⟩
      (some [([1], "image/png")]) "1:1" "2K").1 = [] ∧
    (sanitizeGenerationParams ⟨true, false, false, false⟩
      (some [([1], "image/png")]) "1:1" "2K").2.1 = "自动" ∧
    (sanitizeGenerationParams ⟨true, false, false, false⟩
      (some [([1], "image/png")]) "1:1" "2K").2.2 = "1K" := by
  have h := sanitize_respects_capabilities ⟨true, false, false, false⟩
    (some [([1], "image/png")]) "1:1" "2K"
  exact ⟨h.1 rfl, h.2.2.1 rfl, h.2.2.2.2.1 rfl⟩

/-- The mtime comparison is transitive. -/
theorem cacheLe_trans (a b c : String × Int) :
    cacheLe a b → cacheLe b c → cacheLe a c := by
  simp only [cacheLe, decide_eq_true_eq]
  omega

/-- The mtime comparison is total. -/
theorem cacheLe_total (a b : String × Int) : cacheLe a b || cacheLe b a := by
  simp only [cacheLe, Bool.or_eq_true, decide_eq_true_eq]
  omega

/-- Keeping every path of a list when deletion always succeeds. -/
theorem filterMap_removeOk_all (l : List (String × Int)) (removeOk : String → Bool)
    (h : ∀ p, removeOk p = true) :
    (l.filterMap fun pm => if removeOk pm.1 then some pm.1 else none) =
      l.map Prod.fst := by
  induction l with
  | nil => rfl
  | cons x xs ih =>
    simp [h] at ih
    simp [h, ih]

/-- C4: on one invocation over a directory snapshot, `cleanup_cache`
selects for deletion exactly the `count - max` entries of the
mtime-ascending order when the count exceeds the maximum and nothing
otherwise; the untouched entries number exactly `max` and are all at least
as new as every selected entry; with every `os.remove` succeeding, the
deleted paths are exactly the selected ones; only selected paths are ever
deleted; a per-file deletion failure does not prevent the deletion of any
other selected file; and selection plus kept files partition the
snapshot. -/
theorem cleanup_cache_policy (files : List (String × Int)) (maxCacheCount : Nat)
    (removeOk : String → Bool) :
    (files.length ≤ maxCacheCount → cleanupDeleted files maxCacheCount removeOk = []) ∧
    (maxCacheCount < files.length →
      (cleanupSelect files maxCacheCount).length = files.length - maxCacheCount ∧
      (cleanupKept files maxCacheCount).length = maxCacheCount ∧
      ((∀ p, removeOk p = true) →
        cleanupDeleted files maxCacheCount removeOk =
          (cleanupSelect files maxCacheCount).map Prod.fst)) ∧
    (∀ d ∈ cleanupSelect files maxCacheCount, ∀ k ∈ cleanupKept files maxCacheCount,
      d.2 ≤ k.2) ∧
    (∀ p ∈ cleanupDeleted files maxCacheCount removeOk,
      p ∈ (cleanupSelect files maxCacheCount).map Prod.fst) ∧
    (∀ pm ∈ cleanupSelect files maxCacheCount, removeOk pm.1 = true →
      pm.1 ∈ cleanupDeleted files maxCacheCount removeOk) ∧
    (cleanupSelect files maxCacheCount ++ cleanupKept files maxCacheCount).Perm files := by
  have hlen : (sortedCacheFiles files).length = files.length := by
    simp [sortedCacheFiles]
  have hperm : (sortedCacheFiles files).Perm files := List.mergeSort_perm files cacheLe
  have hpair : (sortedCacheFiles files).Pairwise (fun a b => cacheLe a b = true) :=
    List.sorted_mergeSort cacheLe_trans cacheLe_total files
  have hdelsub : ∀ p ∈ cleanupDeleted files maxCacheCount removeOk,
      p ∈ (cleanupSelect files maxCacheCount).map Prod.fst := by
    intro p hp
    simp only [cleanupDeleted, List.mem_filterMap] at hp
    obtain ⟨pm, hpm, heq⟩ := hp
    by_cases hok : removeOk pm.1 = true
    · rw [if_pos hok] at heq
      cases heq
      exact List.mem_map_of_mem Prod.fst hpm
    · rw [if_neg hok] at heq
      simp at heq
  have hmem : ∀ pm ∈ cleanupSelect files maxCacheCount, removeOk pm.1 = true →
      pm.1 ∈ cleanupDeleted files maxCacheCount removeOk := by
    intro pm hpm hok
    simp only [cleanupDeleted, List.mem_filterMap]
    exact ⟨pm, hpm, by simp [hok]⟩
  by_cases hc : maxCacheCount < files.length
  · have hsel : cleanupSelect files maxCacheCount =
        (sortedCacheFiles files).take (files.length - maxCacheCount) := by
      simp [cleanupSelect, hlen, hc]
    have hkept : cleanupKept files maxCacheCount =
        (sortedCacheFiles files).drop (files.length - maxCacheCount) := by
      simp [cleanupKept, hlen, hc]
    refine ⟨fun h => absurd h (by omega), fun _ => ⟨?_, ?_, ?_⟩, ?_, hdelsub, hmem, ?_⟩
    · rw [hsel, List.length_take, hlen]
      omega
    · rw [hkept, List.length_drop, hlen]
      omega
    · intro hall
      exact filterMap_removeOk_all _ _ hall
    · intro d hd k hk
      rw [hsel] at hd
      rw [hkept] at hk
      have hsplit : sortedCacheFiles files =
          (sortedCacheFiles files).take (files.length - maxCacheCount) ++
            (sortedCacheFiles files).drop (files.length - maxCacheCount) :=
        (List.take_append_drop _ _).symm
      rw [hsplit] at hpair
      have hcross := (List.pairwise_append.mp hpair).2.2 d hd k hk
      simpa [cacheLe] using hcross
    · rw [hsel, hkept, List.take_append_drop]
      exact hperm
  · have hsel : cleanupSelect files maxCacheCount = [] := by
      simp only [cleanupSelect, hlen]
      rw [if_neg hc]
    have hkept : cleanupKept files maxCacheCount = sortedCacheFiles files := by
      simp only [cleanupKept, hlen]
      rw [if_neg hc]
    refine ⟨fun _ => ?_, fun h => absurd h hc, ?_, hdelsub, hmem, ?_⟩
    · simp [cleanupDeleted, hsel]
    · simp [hsel]
    · rw [hsel, hkept]
      simpa using hperm

/-- Witness for C4 on a 3-file snapshot with a maximum of 2: one file is
selected, the two newest are kept, and with deletions succeeding the
deleted paths equal the selected ones. -/
theorem cleanup_cache_policy_witness :
    (cleanupSelect [("a", (5 : Int)), ("b", 1), ("c", 3)] 2).length = 3 - 2 ∧
    (cleanupKept [("a", (5 : Int)), ("b", 1), ("c", 3)] 2).length = 2 ∧
    cleanupDeleted [("a", (5 : Int)), ("b", 1), ("c", 3)] 2 (fun _ => true) =
      (cleanupSelect [("a", (5 : Int)), ("b", 1), ("c", 3)] 2).map Prod.fst := by
  have h := cleanup_cache_policy [("a", (5 : Int)), ("b", 1), ("c", 3)] 2 (fun _ => true)
  have h2 := h.2.1 (by decide)
  exact ⟨h2.1, h2.2.1, h2.2.2 fun p => rfl⟩

/-- One per-attempt segment of the spec's description of the retry trace:
an optional backoff sleep followed by the attempt itself. -/
def retryTraceItem (K i : Nat) : List RetryEvent :=
  (if 0 < i ∧ i % K = 0 then [RetryEvent.sleep (min (2 ^ (i / K)) 10)] else []) ++
    [RetryEvent.attempt (i % K)]

/-- The claimed trace is the concatenation of the per-attempt segments. -/
theorem claimedRetryTrace_eq (K M : Nat) :
    claimedRetryTrace K M = (List.range M).flatMap (retryTraceItem K) := rfl

/-- Rotating the key index preserves the in-sync invariant
`current_key_index ≡ attempt (mod K)`. -/
theorem rotate_mod_succ (K a c : Nat) (hK : 1 ≤ K) (hc : c % K = a % K) :
    (if 1 < K then (c + 1) % K else c) % K = (a + 1) % K := by
  by_cases h2 : 1 < K
  · rw [if_pos h2, Nat.mod_mod_of_dvd _ dvd_rfl, Nat.add_mod c 1 K, Nat.add_mod a 1 K, hc]
  · rw [if_neg h2]
    have hK1 : K = 1 := by omega
    subst hK1
    simp [Nat.mod_one]

/-- Trace shape of the retry loop when every attempt fails: the attempt at
counter `a` with an in-sync key index, then one spec segment per later
attempt. -/
theorem generateLoop_trace_allFail (outcome : Nat → AttemptOutcome) (K : Nat)
    (hK : 1 ≤ K) (hfail : ∀ i, (outcome i).1 = none) :
    ∀ (r a c : Nat) (le : String), c % K = a % K →
      (generateLoop outcome K (r + 1) a c le).2.1 =
        RetryEvent.attempt (a % K) :: (List.range' (a + 1) r).flatMap (retryTraceItem K) := by
  intro r
  induction r with
  | zero =>
    intro a c le hc
    cases ho : outcome a with
    | mk o1 o2 =>
      have h1 := hfail a
      rw [ho] at h1
      simp only at h1
      subst h1
      simp [generateLoop, ho, hc]
  | succ s ih =>
    intro a c le hc
    cases ho : outcome a with
    | mk o1 o2 =>
      have h1 := hfail a
      rw [ho] at h1
      simp only at h1
      subst h1
      have ihh := ih (a + 1) (if 1 < K then (c + 1) % K else c) (pyOr o2 "生成失败")
        (rotate_mod_succ K a c hK hc)
      rw [generateLoop, ho]
      dsimp only
      rw [if_neg (Nat.succ_ne_zero s)]
      dsimp only
      rw [ihh, List.range'_succ, List.flatMap_cons, hc]
      simp [retryTraceItem, Nat.max_eq_right hK]

/-- C2: for a fresh adapter with a non-empty key pool and attempt budget
`M`, a run whose attempts all fail produces exactly the spec's trace:
attempt `i` (0-indexed) uses credential index `i mod K`, and a backoff
sleep of `min(2 ^ (i / K), 10)` seconds occurs immediately before attempt
`i` exactly when `i` is a positive multiple of `K`. -/
theorem generate_retry_trace (apiKeys : List String) (M : Nat)
    (outcome : Nat → AttemptOutcome) (hne : apiKeys ≠ [])
    (hfail : ∀ i, (outcome i).1 = none) :
    (generate apiKeys M outcome).2.1 = claimedRetryTrace apiKeys.length M := by
  have hK : 1 ≤ apiKeys.length := List.length_pos.mpr hne
  rw [generate, if_neg hne]
  cases M with
  | zero => rfl
  | succ m =>
    rw [generateLoop_trace_allFail outcome apiKeys.length hK hfail m 0 0 _ rfl]
    rw [claimedRetryTrace_eq, List.range_eq_range', List.range'_succ, List.flatMap_cons]
    simp [retryTraceItem]

/-- Witness for C2 with two keys and budget 5. -/
theorem generate_retry_trace_witness :
    (generate ["k1", "k2"] 5 fun _ => (none, some "boom")).2.1 = claimedRetryTrace 2 5 :=
  generate_retry_trace ["k1", "k2"] 5 (fun _ => (none, some "boom")) (by decide)
    fun _ => rfl

/-- Result of the retry loop when every attempt fails: the exhaustion error
built from the outcome of the last attempt executed. -/
theorem generateLoop_result_allFail (outcome : Nat → AttemptOutcome) (K : Nat)
    (hfail : ∀ i, (outcome i).1 = none) :
    ∀ (r a c : Nat) (le : String),
      (generateLoop outcome K (r + 1) a c le).1 =
        ⟨none, some ("重试失败: " ++ pyOr (outcome (a + r)).2 "生成失败")⟩ := by
  intro r
  induction r with
  | zero =>
    intro a c le
    cases ho : outcome a with
    | mk o1 o2 =>
      have h1 := hfail a
      rw [ho] at h1
      simp only at h1
      subst h1
      simp [generateLoop, ho]
  | succ s ih =>
    intro a c le
    cases ho : outcome a with
    | mk o1 o2 =>
      have h1 := hfail a
      rw [ho] at h1
      simp only at h1
      subst h1
      rw [generateLoop, ho]
      dsimp only
      rw [if_neg (Nat.succ_ne_zero s)]
      dsimp only
      rw [ih (a + 1) (if 1 < K then (c + 1) % K else c) (pyOr o2 "生成失败")]
      have hidx : a + 1 + s = a + (s + 1) := by omega
      rw [hidx]

/-- C6: when every one of the `M ≥ 1` attempts fails, the call returns a
single failure whose error is the last attempt's error prefixed with the
retry-exhaustion marker `重试失败: `, and the dispatcher's fault barrier
hands exactly that result to the caller as a value (the adapter returned,
it did not raise). -/
theorem generate_exhaustion_error (apiKeys : List String) (M : Nat)
    (outcome : Nat → AttemptOutcome) (err : String) (hne : apiKeys ≠ [])
    (hM : 1 ≤ M) (hfail : ∀ i, (outcome i).1 = none)
    (hlast : (outcome (M - 1)).2 = some err) (herr : err ≠ "") :
    (generate apiKeys M outcome).1 = ⟨none, some ("重试失败: " ++ err)⟩ ∧
    dispatcherHandle (Except.ok (generate apiKeys M outcome).1) =
      (generate apiKeys M outcome).1 := by
  obtain ⟨m, rfl⟩ : ∃ m, M = m + 1 := ⟨M - 1, by omega⟩
  rw [Nat.add_sub_cancel] at hlast
  constructor
  · rw [generate, if_neg hne]
    rw [generateLoop_result_allFail outcome apiKeys.length hfail m 0 0 "未配置 API Key"]
    rw [Nat.zero_add, hlast]
    simp [pyOr, herr]
  · rfl

/-- Witness for C6 with one key, budget 3, every attempt failing with
"boom". -/
theorem generate_exhaustion_error_witness :
    (generate ["k"] 3 fun _ => (none, some "boom")).1 =
      ⟨none, some ("重试失败: " ++ "boom")⟩ ∧
    dispatcherHandle (Except.ok (generate ["k"] 3 fun _ => (none, some "boom")).1) =
      (generate ["k"] 3 fun _ => (none, some "boom")).1 :=
  generate_exhaustion_error ["k"] 3 (fun _ => (none, some "boom")) "boom" (by decide)
    (by decide) (fun _ => rfl) rfl (by decide)

/-- A successful `_extract_images` never carries an empty image list: the
empty collection is turned into an error instead. -/
theorem extractImages_images_ne_nil (response : Option (List RespItem)) (l : List Blob)
    (h : (extractImages response).1 = some l) : l ≠ [] := by
  intro hl
  subst hl
  cases response with
  | none => simp [extractImages] at h
  | some data =>
    simp only [extractImages] at h
    split at h
    · simp at h
    · rename_i hne
      simp only at h
      exact hne (Option.some_inj.mp h)

/-- The retry-exhaustion message is never the empty string. -/
theorem retryFail_msg_ne_empty (s : String) : ("重试失败: " ++ s) ≠ "" := by
  intro h
  have hlen := congrArg String.length h
  rw [String.length_append] at hlen
  rw [show ("重试失败: " : String).length = 6 from rfl] at hlen
  rw [show ("" : String).length = 0 from rfl] at hlen
  omega

/-- Every result of the retry loop is exclusively images-or-error, provided
single attempts never report an empty image list. -/
theorem generateLoop_result_exclusive (outcome : Nat → AttemptOutcome) (K : Nat)
    (himg : ∀ i l, (outcome i).1 = some l → l ≠ []) :
    ∀ (r a c : Nat) (le : String), resultExclusive (generateLoop outcome K r a c le).1 := by
  intro r
  induction r with
  | zero =>
    intro a c le
    exact Or.inr ⟨rfl, "重试失败: " ++ le, rfl, retryFail_msg_ne_empty le⟩
  | succ s ih =>
    intro a c le
    cases ho : outcome a with
    | mk o1 o2 =>
      cases o1 with
      | some imgs =>
        rw [generateLoop, ho]
        dsimp only
        exact Or.inl ⟨imgs, rfl, himg a imgs (by rw [ho]), rfl⟩
      | none =>
        rw [generateLoop, ho]
        dsimp only
        by_cases hs : s = 0
        · subst hs
          rw [if_pos rfl]
          exact Or.inr ⟨rfl, _, rfl, retryFail_msg_ne_empty _⟩
        · rw [if_neg hs]
          dsimp only
          exact ih (a + 1) (if 1 < K then (c + 1) % K else c) (pyOr o2 "生成失败")

/-- C5: every result of a generation call has exactly one side populated —
a non-empty image list with no error, or a non-empty error description with
no images — given that each attempt's outcome is what `_generate_once`
can actually produce: a transport/status failure with no images, or an
`_extract_images` result. -/
theorem generate_result_exclusive (apiKeys : List String) (M : Nat)
    (outcome : Nat → AttemptOutcome)
    (hout : ∀ i, (outcome i).1 = none ∨ ∃ resp, outcome i = extractImages resp) :
    resultExclusive (generate apiKeys M outcome).1 := by
  have himg : ∀ i l, (outcome i).1 = some l → l ≠ [] := by
    intro i l h
    rcases hout i with hnone | ⟨resp, hresp⟩
    · rw [hnone] at h
      exact absurd h (by simp)
    · rw [hresp] at h
      exact extractImages_images_ne_nil resp l h
  by_cases hne : apiKeys = []
  · subst hne
    rw [generate, if_pos rfl]
    exact Or.inr ⟨rfl, "未配置 API Key", rfl, by decide⟩
  · rw [generate, if_neg hne]
    exact generateLoop_result_exclusive outcome apiKeys.length himg M 0 0 "未配置 API Key"

/-- Witness for C5: one key, budget 3, every attempt a successful
extraction of one base64 image. -/
theorem generate_result_exclusive_witness :
    resultExclusive (generate ["k"] 3 fun _ => extractImages (some [RespItem.b64 [1, 2]])).1 :=
  generate_result_exclusive ["k"] 3 (fun _ => extractImages (some [RespItem.b64 [1, 2]]))
    fun _ => Or.inr ⟨some [RespItem.b64 [1, 2]], rfl⟩

/-- Every divisor the retry loop evaluates is positive when the pool is
non-empty. -/
theorem generateLoop_divisors_pos (outcome : Nat → AttemptOutcome) (K : Nat)
    (hK : 1 ≤ K) :
    ∀ (r a c : Nat) (le : String), ∀ d ∈ (generateLoop outcome K r a c le).2.2, 1 ≤ d := by
  intro r
  induction r with
  | zero =>
    intro a c le d hd
    simp [generateLoop] at hd
  | succ s ih =>
    intro a c le d hd
    cases ho : outcome a with
    | mk o1 o2 =>
      cases o1 with
      | some imgs =>
        rw [generateLoop, ho] at hd
        simp at hd
        omega
      | none =>
        rw [generateLoop, ho] at hd
        dsimp only at hd
        by_cases hs : s = 0
        · subst hs
          rw [if_pos rfl] at hd
          simp at hd
          omega
        · rw [if_neg hs] at hd
          dsimp only at hd
          rcases List.mem_append.mp hd with hd1 | hd1
          · rcases List.mem_append.mp hd1 with hd2 | hd2
            · rcases List.mem_append.mp hd2 with hd3 | hd3
              · simp at hd3
                omega
              · split at hd3
                · simp at hd3
                  omega
                · simp at hd3
            · split at hd2
              · simp at hd2
                rcases hd2 with h | h <;> omega
              · simp at hd2
                omega
          · exact ih (a + 1) (if 1 < K then (c + 1) % K else c)
              (pyOr o2 "生成失败") d hd1

/-- C9: in every reachable state of a generation call — any pool, any
attempt budget, any attempt outcomes — every divisor of every `%` and `//`
the retry loop's backoff computation evaluates is at least 1, so no
division or modulo by zero ever occurs. -/
theorem generate_divisors_at_least_one (apiKeys : List String) (M : Nat)
    (outcome : Nat → AttemptOutcome) :
    ∀ d ∈ (generate apiKeys M outcome).2.2, 1 ≤ d := by
  by_cases hne : apiKeys = []
  · subst hne
    intro d hd
    simp [generate] at hd
  · rw [generate, if_neg hne]
    exact generateLoop_divisors_pos outcome apiKeys.length (List.length_pos.mpr hne)
      M 0 0 "未配置 API Key"

/-- Witness for C9: zero is not among the divisors evaluated by a concrete
all-failing two-key run. -/
theorem generate_divisors_at_least_one_witness :
    0 ∉ (generate ["k1", "k2"] 3 fun _ => (none, some "x")).2.2 :=
  fun h =>
    absurd (generate_divisors_at_least_one ["k1", "k2"] 3 (fun _ => (none, some "x")) 0 h)
      (by decide)

/-- Whenever the attempt budget is positive, the retry loop performs at
least one backend invocation attempt. -/
theorem generateLoop_count_attempts_pos (outcome : Nat → AttemptOutcome) (K : Nat) :
    ∀ (r a c : Nat) (le : String),
      1 ≤ countAttempts (generateLoop outcome K (r + 1) a c le).2.1 := by
  intro r a c le
  cases ho : outcome a with
  | mk o1 o2 =>
    cases o1 with
    | some imgs =>
      rw [generateLoop, ho]
      simp [countAttempts]
    | none =>
      rw [generateLoop, ho]
      dsimp only
      by_cases hs : r = 0
      · subst hs
        rw [if_pos rfl]
        simp [countAttempts]
      · rw [if_neg hs]
        dsimp only
        simp only [countAttempts, List.filter_cons]
        simp

/-- C10: whatever integer `max_retry_attempts` the configuration carries —
zero or negative included — the constructed adapter's budget is clamped to
at least 1, and a generation call with a non-empty credential pool performs
at least one backend invocation attempt. -/
theorem generate_min_attempt_budget (configured : Int) (apiKeys : List String)
    (outcome : Nat → AttemptOutcome) (hne : apiKeys ≠ []) :
    1 ≤ clampRetryAttempts configured ∧
    1 ≤ countAttempts (generate apiKeys (clampRetryAttempts configured) outcome).2.1 := by
  have h1 : 1 ≤ clampRetryAttempts configured := by
    simp only [clampRetryAttempts]
    omega
  refine ⟨h1, ?_⟩
  obtain ⟨m, hm⟩ : ∃ m, clampRetryAttempts configured = m + 1 :=
    ⟨clampRetryAttempts configured - 1, by omega⟩
  rw [hm, generate, if_neg hne]
  exact generateLoop_count_attempts_pos outcome apiKeys.length m 0 0 "未配置 API Key"

/-- Witness for C10 at a configured budget of -5 and a one-key pool. -/
theorem generate_min_attempt_budget_witness :
    1 ≤ clampRetryAttempts (-5) ∧
    1 ≤ countAttempts (generate ["k"] (clampRetryAttempts (-5)) fun _ =>
      (none, some "x")).2.1 :=
  generate_min_attempt_budget (-5) ["k"] (fun _ => (none, some "x")) (by decide)
